import Mathlib

set_option maxRecDepth 8000

/-!
Verification of the sweep-and-acquire engine of `bode.py` (the `bode_plot`
function: frequency planning, per-point acquisition with bounded retry,
gain conversion, and result aggregation).

The Python code is shallowly embedded as follows.

* Python floats are modelled as real numbers (`ℝ`) where logarithms and
  log-spacing are involved, and as rationals (`ℚ`) inside the acquisition
  protocol, where everything is finite arithmetic on parsed decimal strings
  and the embedding must be executable.  IEEE `-inf` produced by
  `np.log10(0.0)` is modelled explicitly as `⊥ : EReal`.
* The oscilloscope channel is modelled by a script of query outcomes: each
  query either raises a `pyvisa` communication error (`QueryOutcome.fault`)
  or returns a reply string (`QueryOutcome.reply`).  Writes never influence
  the data flow of the source and are not modelled.
* A Python exception that no `try` block catches propagates out of
  `bode_plot`; this is the `raised`/`aborted` outcome below.  The unbounded
  `while True` trigger-status poll can also spin forever if the scope never
  reports `Stop`; this divergence is modelled as the `hung` outcome.
-/

/-! ### Python string and float helpers

These work on `List Char` (structural recursion, so that concrete instrument
replies evaluate inside `decide`). -/

/-- Python `str.strip()`: remove leading and trailing whitespace. -/
def trimChars (cs : List Char) : List Char :=
  ((cs.dropWhile Char.isWhitespace).reverse.dropWhile Char.isWhitespace).reverse

/-- Python `str.rstrip(c)`: remove every trailing occurrence of `c`. -/
def rstripChar (c : Char) (cs : List Char) : List Char :=
  (cs.reverse.dropWhile (fun d => d = c)).reverse

/-- Python `str.split(',')`: split at every comma, keeping empty fields. -/
def splitOnComma : List Char → List (List Char)
  | [] => [[]]
  | d :: rest =>
    match splitOnComma rest with
    | [] => [[]]
    | g :: gs => if d = ',' then [] :: g :: gs else (d :: g) :: gs

/-- Digits-to-number accumulator for a list of decimal digit characters. -/
def digitsToNat (ds : List Char) : ℕ :=
  ds.foldl (fun n c => 10 * n + (c.toNat - 48)) 0

/-- Exponent suffix of a Python float literal: optional sign then digits,
nothing may follow. -/
def pyExponent (mant : ℚ) (t : List Char) : Option ℚ :=
  let p :=
    match t with
    | '+' :: u => ((1 : ℤ), u)
    | '-' :: u => ((-1 : ℤ), u)
    | _ => ((1 : ℤ), t)
  let q := p.2.span Char.isDigit
  if q.1.isEmpty || !q.2.isEmpty then none
  else some (mant * (10 : ℚ) ^ (p.1 * (digitsToNat q.1 : ℤ)))

/-- Core of Python `float(...)` on a character list: optional sign, integer
digits, optional fractional part, optional scientific exponent.  The exotic
inputs Python additionally accepts (`inf`, `nan`, digit-group underscores)
never occur in the instrument replies this models and are out of scope. -/
def pyFloatCore (cs : List Char) : Option ℚ :=
  let p :=
    match cs with
    | '+' :: t => ((1 : ℚ), t)
    | '-' :: t => ((-1 : ℚ), t)
    | _ => ((1 : ℚ), cs)
  let q := p.2.span Char.isDigit
  let r :=
    match q.2 with
    | '.' :: t => t.span Char.isDigit
    | _ => (([] : List Char), q.2)
  if q.1.isEmpty && r.1.isEmpty then none
  else
    let mant : ℚ := p.1 * ((digitsToNat q.1 : ℚ) + (digitsToNat r.1 : ℚ) / (10 : ℚ) ^ r.1.length)
    match r.2 with
    | [] => some mant
    | 'e' :: t => pyExponent mant t
    | 'E' :: t => pyExponent mant t
    | _ => none

/-- Python `float(s)`, which tolerates surrounding whitespace; `none` models
a raised `ValueError`. -/
def pyFloat (cs : List Char) : Option ℚ :=
  pyFloatCore (trimChars cs)

/-- Parse of the Siglent peak-to-peak reply, from
`float(pkpk_str.strip().split(',')[1].rstrip('V'))`: a missing second
comma field (`IndexError`) or an unparseable number (`ValueError`) yields
`none`. -/
def parsePkpkReply (s : String) : Option ℚ :=
  match splitOnComma (trimChars s.data) with
  | _ :: second :: _ => pyFloat (rstripChar 'V' second)
  | _ => none

/-- Parse of the Siglent timebase read-back, from
`float(tdiv_response.strip().rstrip('S'))`. -/
def parseTdiv (s : String) : Option ℚ :=
  pyFloat (rstripChar 'S' (trimChars s.data))

/-! ### Channel model and acquisition protocol -/

/-- Outcome of one `osc.query(...)` call: a `pyvisa` communication error, or
a reply string. -/
inductive QueryOutcome where
  | fault
  | reply (s : String)
deriving DecidableEq

/-- Per-sweep constants of `bode_plot` that the acquisition loop reads:
`vpp_input`, `error_check_max_gain`, `max_attempts`. -/
structure AcquisitionConfig where
  vppInput : ℚ
  errorCheckMaxGain : ℚ
  maxAttempts : ℕ
deriving DecidableEq

/-- The validity check of the retry loop:
`vpp_candidate > 0 and vpp_candidate < error_check_max_gain * vpp_input`. -/
def isValidReading (cfg : AcquisitionConfig) (v : ℚ) : Bool :=
  decide (0 < v) && decide (v < cfg.errorCheckMaxGain * cfg.vppInput)

/-- Channel behaviour during one iteration of the retry loop: the successive
replies to the `TRIG:STAT?` polls, then the reply to `C1:PAVA? PKPK`. -/
structure AttemptScript where
  polls : List QueryOutcome
  pkpk : QueryOutcome
deriving DecidableEq

/-- Result of the `while True` trigger-status poll. -/
inductive PollResult where
  | stopped
  | faulted
  | hung
deriving DecidableEq

/-- The `while True` trigger-status poll: it exits when a reply strips to
`Stop`, raises if a poll query faults, and spins forever otherwise (the
script running out models the scope never reporting `Stop`). -/
def pollTrigger : List QueryOutcome → PollResult
  | [] => .hung
  | .fault :: _ => .faulted
  | .reply s :: rest =>
    if trimChars s.data = "Stop".data then .stopped else pollTrigger rest

/-- The amplitude the attempt works with: a caught exception — either a
communication fault of the `C1:PAVA? PKPK` query or a parse failure of its
reply — is converted to `0.0` by the `except` block. -/
def attemptCandidate (a : AttemptScript) : ℚ :=
  match a.pkpk with
  | .fault => 0
  | .reply s => (parsePkpkReply s).getD 0

/-- Outcome of `for attempt in range(max_attempts)` with the retry body. -/
inductive AttemptsOutcome where
  | accepted (v : ℚ) (attemptsUsed : ℕ)
  | exhausted (attemptsUsed : ℕ)
  | commError
  | hung
deriving DecidableEq

/-- The Siglent retry loop of `bode_plot`: up to `fuel` attempts, each
polling the trigger status, reading a candidate amplitude, and accepting it
iff the validity check passes; `used` counts the attempts consumed so
far. -/
def runAttempts (cfg : AcquisitionConfig) : ℕ → List AttemptScript → ℕ → AttemptsOutcome
  | 0, _, used => .exhausted used
  | _ + 1, [], _ => .hung
  | fuel + 1, a :: rest, used =>
    match pollTrigger a.polls with
    | .faulted => .commError
    | .hung => .hung
    | .stopped =>
      if isValidReading cfg (attemptCandidate a) then .accepted (attemptCandidate a) (used + 1)
      else runAttempts cfg fuel rest (used + 1)

/-- Channel behaviour for one frequency point: the reply to the `TDIV?`
read-back, then one `AttemptScript` per retry-loop iteration. -/
structure PointScript where
  tdivReply : QueryOutcome
  attempts : List AttemptScript
deriving DecidableEq

/-- Per-frequency outcome recorded by the sweep: the accepted amplitude (or
the sentinel `0` with `degraded = true` when `vpp` stayed `None`), the
number of attempts consumed, and the read-back timebase, which the source
only prints. -/
structure PointResult where
  vpp : ℚ
  attemptsUsed : ℕ
  degraded : Bool
  actualScale : ℚ
deriving DecidableEq

/-- Outcome of processing one frequency point.  `raised` is an uncaught
Python exception leaving `bode_plot` (a `pyvisa` error from an unguarded
query, or the `ValueError` of the unguarded `float()` on the `TDIV?`
reply); `hung` is a trigger-status poll that never sees `Stop`. -/
inductive PointOutcome where
  | ok (r : PointResult)
  | raised
  | hung
deriving DecidableEq

/-- One frequency point of `bode_plot`: read back the timebase, run the
retry loop, and turn an exhausted loop into the degraded `vpp = 0.0`
fallback. -/
def acquirePoint (cfg : AcquisitionConfig) (p : PointScript) : PointOutcome :=
  match p.tdivReply with
  | .fault => .raised
  | .reply s =>
    match parseTdiv s with
    | none => .raised
    | some actual =>
      match runAttempts cfg cfg.maxAttempts p.attempts 0 with
      | .commError => .raised
      | .hung => .hung
      | .accepted v n => .ok ⟨v, n, false, actual⟩
      | .exhausted n => .ok ⟨0, n, true, actual⟩

/-- Measurement content of a point outcome, with the diagnostics-only
read-back timebase removed. -/
def PointOutcome.diagFree : PointOutcome → Option (ℚ × ℕ × Bool)
  | .ok r => some (r.vpp, r.attemptsUsed, r.degraded)
  | _ => none

/-! ### Gain conversion and sweep -/

/-- Gain conversion of `bode_plot`:
`20 * np.log10(abs(vpp) / abs(vpp_input))`.  When the measured amplitude is
zero the float computation yields IEEE `-inf`, modelled explicitly as
`⊥ : EReal` (the `reference = 0` case, where numpy produces `inf`/`nan`, is
outside the modelled domain: the sweep always calls this with the fixed
nonzero `vpp_input`). -/
noncomputable def toDecibels (measured reference : ℝ) : EReal :=
  if measured = 0 then ⊥
  else ((20 * Real.logb 10 (|measured| / |reference|) : ℝ) : EReal)

/-- Status of one sweep of `bode_plot`: normal completion, an uncaught
exception propagating to the caller, or an endless trigger poll. -/
inductive SweepStatus where
  | completed
  | aborted
  | hung
deriving DecidableEq

/-- The per-frequency loop of `bode_plot`: for each point, acquire, then
append the amplitude to `vpp_measurements` and its decibel conversion to
`db_measurements`; an uncaught exception stops the iteration at once. -/
noncomputable def sweepPoints (cfg : AcquisitionConfig) :
    List PointScript → SweepStatus × List ℚ × List EReal
  | [] => (SweepStatus.completed, [], [])
  | p :: rest =>
    match acquirePoint cfg p with
    | .raised => (SweepStatus.aborted, [], [])
    | .hung => (SweepStatus.hung, [], [])
    | .ok r =>
      let t := sweepPoints cfg rest
      (t.1, r.vpp :: t.2.1, toDecibels (r.vpp : ℝ) (cfg.vppInput : ℝ) :: t.2.2)

/-- Observable outcome of one call of `bode_plot`.  `closeCount` is the
number of times each opened channel (`pwr`, `wfg`, `osc`) is closed: the
close calls sit after the loop with no `try`/`finally`, so they run exactly
once on normal completion and never when an exception propagates or the
poll hangs. -/
structure SweepOutcome where
  status : SweepStatus
  vpps : List ℚ
  dbs : List EReal
  closeCount : ℕ

/-- Full sweep over the planned points of `bode_plot`. -/
noncomputable def runSweep (cfg : AcquisitionConfig) (pts : List PointScript) : SweepOutcome :=
  { status := (sweepPoints cfg pts).1
    vpps := (sweepPoints cfg pts).2.1
    dbs := (sweepPoints cfg pts).2.2
    closeCount := if (sweepPoints cfg pts).1 = SweepStatus.completed then 1 else 0 }

/-- What the caller of `bode_plot` receives: the series when the function
returns normally, nothing when the exception propagates (the local lists
are discarded with the stack frame). -/
noncomputable def callerResult (o : SweepOutcome) : Option (List ℚ × List EReal) :=
  if o.status = SweepStatus.completed then some (o.vpps, o.dbs) else none

/-- The horizontal timebase selected for a target frequency:
`horizontal_scale = max(10/freq, 100e-6)`. -/
noncomputable def horizontalScale (freq : ℝ) : ℝ :=
  max (10 / freq) 100e-6

/-! ### Frequency planning -/

/-- Python `int(...)` on a float: truncation toward zero. -/
noncomputable def truncToInt (x : ℝ) : ℤ :=
  if 0 ≤ x then ⌊x⌋ else -⌊-x⌋

/-- The error a planning step can raise: `np.logspace` raises a generic
`ValueError` when handed a negative sample count. -/
inductive PlanError where
  | valueError
deriving DecidableEq

/-- Model of `np.logspace(a, b, n)`: `n` points whose base-10 exponents are
evenly spaced from `a` to `b`, endpoints included (for `n = 1` numpy
returns `[10^a]`, matched here because division by zero yields zero). -/
noncomputable def logspace (a b : ℝ) (n : ℕ) : List ℝ :=
  (List.range n).map (fun i : ℕ => (10 : ℝ) ^ (a + (b - a) * (i : ℝ) / ((n : ℝ) - 1)))

/-- The frequency plan of `bode_plot`:
`decades = np.log10(end_freq) - np.log10(start_freq)`,
`total_points = int(decades * points_per_decade)`,
`freqs = np.logspace(np.log10(start_freq), np.log10(end_freq), total_points)`.
No parameter validation is performed; the only failure is numpy rejecting a
negative sample count. -/
noncomputable def frequencyPlan (startFreq endFreq pointsPerDecade : ℝ) :
    Except PlanError (List ℝ) :=
  let decades := Real.logb 10 endFreq - Real.logb 10 startFreq
  let totalPoints := truncToInt (decades * pointsPerDecade)
  if totalPoints < 0 then .error .valueError
  else .ok (logspace (Real.logb 10 startFreq) (Real.logb 10 endFreq) totalPoints.toNat)

/-- Number of planned frequencies (0 for a planning error). -/
def planLength : Except PlanError (List ℝ) → ℕ
  | .ok l => l.length
  | .error _ => 0

/-! ### Concrete data used by witnesses and counterexamples -/

/-- The constants hard-coded in `bode_plot`: `vpp_input = 0.01`,
`error_check_max_gain = 1000`, `max_attempts = 5`. -/
def bodeConfig : AcquisitionConfig :=
  { vppInput := 1 / 100, errorCheckMaxGain := 1000, maxAttempts := 5 }

/-- An attempt whose poll stops at once and whose reply parses to a valid
2.34 V reading. -/
def goodAttempt : AttemptScript :=
  { polls := [QueryOutcome.reply "Stop"], pkpk := QueryOutcome.reply "C1:PAVA PKPK,2.34E+00V" }

/-- An attempt whose reply has no comma field, hence fails to parse. -/
def badAttempt : AttemptScript :=
  { polls := [QueryOutcome.reply "Stop"], pkpk := QueryOutcome.reply "C1:PAVA PKPK" }

/-- An attempt whose peak-to-peak query raises a communication fault. -/
def faultAttempt : AttemptScript :=
  { polls := [QueryOutcome.reply "Stop"], pkpk := QueryOutcome.fault }

/-- A frequency point that parses its timebase read-back and succeeds on the
first attempt. -/
def goodPoint : PointScript :=
  { tdivReply := QueryOutcome.reply "5.0E-4S", attempts := [goodAttempt] }

/-- A frequency point whose trigger-status poll raises a communication
fault, which no `try` block catches. -/
def faultPoint : PointScript :=
  { tdivReply := QueryOutcome.reply "5.0E-4S",
    attempts := [{ polls := [QueryOutcome.fault], pkpk := QueryOutcome.reply "ignored" }] }

/-- A frequency point whose peak-to-peak query faults on the first attempt
and delivers a valid reading on the second. -/
def faultThenGoodPoint : PointScript :=
  { tdivReply := QueryOutcome.reply "5.0E-4S", attempts := [faultAttempt, goodAttempt] }

/-! ### Helper lemmas about the retry loop -/

theorem isValidReading_iff (cfg : AcquisitionConfig) (v : ℚ) :
    isValidReading cfg v = true ↔ (0 < v ∧ v < cfg.errorCheckMaxGain * cfg.vppInput) := by
  simp [isValidReading]

theorem isValidReading_zero (cfg : AcquisitionConfig) : isValidReading cfg 0 = false := by
  simp [isValidReading]

theorem runAttempts_cons_stopped (cfg : AcquisitionConfig) (fuel used : ℕ)
    (a : AttemptScript) (rest : List AttemptScript)
    (h : pollTrigger a.polls = PollResult.stopped) :
    runAttempts cfg (fuel + 1) (a :: rest) used =
      if isValidReading cfg (attemptCandidate a) then
        AttemptsOutcome.accepted (attemptCandidate a) (used + 1)
      else runAttempts cfg fuel rest (used + 1) := by
  simp [runAttempts, h]

theorem runAttempts_step_valid (cfg : AcquisitionConfig) (fuel used : ℕ)
    (a : AttemptScript) (rest : List AttemptScript)
    (h : pollTrigger a.polls = PollResult.stopped)
    (hv : isValidReading cfg (attemptCandidate a) = true) :
    runAttempts cfg (fuel + 1) (a :: rest) used =
      AttemptsOutcome.accepted (attemptCandidate a) (used + 1) := by
  rw [runAttempts_cons_stopped cfg fuel used a rest h, hv]
  simp

theorem runAttempts_step_invalid (cfg : AcquisitionConfig) (fuel used : ℕ)
    (a : AttemptScript) (rest : List AttemptScript)
    (h : pollTrigger a.polls = PollResult.stopped)
    (hv : isValidReading cfg (attemptCandidate a) = false) :
    runAttempts cfg (fuel + 1) (a :: rest) used = runAttempts cfg fuel rest (used + 1) := by
  rw [runAttempts_cons_stopped cfg fuel used a rest h, hv]
  simp

theorem runAttempts_skip_invalid (cfg : AcquisitionConfig) :
    ∀ (bad : List AttemptScript) (fuel used : ℕ) (rest : List AttemptScript),
    (∀ b ∈ bad, pollTrigger b.polls = PollResult.stopped ∧
      isValidReading cfg (attemptCandidate b) = false) →
    runAttempts cfg (bad.length + fuel) (bad ++ rest) used =
      runAttempts cfg fuel rest (used + bad.length)
  | [], fuel, used, rest, _ => by simp
  | b :: bs, fuel, used, rest, hbad => by
    have hb := hbad b (List.mem_cons_self b bs)
    have hlen : (b :: bs).length + fuel = (bs.length + fuel) + 1 := by
      simp [List.length_cons]
      omega
    rw [hlen, List.cons_append,
      runAttempts_step_invalid cfg (bs.length + fuel) used b (bs ++ rest) hb.1 hb.2,
      runAttempts_skip_invalid cfg bs fuel (used + 1) rest
        (fun x hx => hbad x (List.mem_cons_of_mem b hx))]
    have : used + 1 + bs.length = used + (b :: bs).length := by
      simp [List.length_cons]
      omega
    rw [this]

theorem runAttempts_all_invalid (cfg : AcquisitionConfig) :
    ∀ (fuel : ℕ) (scripts : List AttemptScript) (used : ℕ),
    fuel ≤ scripts.length →
    (∀ b ∈ scripts, pollTrigger b.polls = PollResult.stopped ∧
      isValidReading cfg (attemptCandidate b) = false) →
    runAttempts cfg fuel scripts used = AttemptsOutcome.exhausted (used + fuel)
  | 0, scripts, used, _, _ => by simp [runAttempts]
  | fuel + 1, [], used, hle, _ => by simp at hle
  | fuel + 1, a :: rest, used, hle, hbad => by
    have ha := hbad a (List.mem_cons_self a rest)
    rw [runAttempts_step_invalid cfg fuel used a rest ha.1 ha.2,
      runAttempts_all_invalid cfg fuel rest (used + 1)
        (by simpa [List.length_cons] using Nat.succ_le_succ_iff.mp hle)
        (fun x hx => hbad x (List.mem_cons_of_mem a hx))]
    have : used + 1 + fuel = used + (fuel + 1) := by omega
    rw [this]

theorem runAttempts_accepted_imp_valid (cfg : AcquisitionConfig) :
    ∀ (fuel : ℕ) (scripts : List AttemptScript) (used : ℕ) (v : ℚ) (n : ℕ),
    runAttempts cfg fuel scripts used = AttemptsOutcome.accepted v n →
    isValidReading cfg v = true
  | 0, scripts, used, v, n, h => by simp [runAttempts] at h
  | fuel + 1, [], used, v, n, h => by simp [runAttempts] at h
  | fuel + 1, a :: rest, used, v, n, h => by
    rw [show runAttempts cfg (fuel + 1) (a :: rest) used =
        match pollTrigger a.polls with
        | .faulted => AttemptsOutcome.commError
        | .hung => AttemptsOutcome.hung
        | .stopped =>
          if isValidReading cfg (attemptCandidate a) then
            AttemptsOutcome.accepted (attemptCandidate a) (used + 1)
          else runAttempts cfg fuel rest (used + 1) from rfl] at h
    cases hpoll : pollTrigger a.polls <;> rw [hpoll] at h
    · by_cases hv : isValidReading cfg (attemptCandidate a) = true
      · rw [if_pos hv] at h
        cases h
        exact hv
      · rw [if_neg hv] at h
        exact runAttempts_accepted_imp_valid cfg fuel rest (used + 1) v n h
    · cases h
    · cases h

theorem acquirePoint_ok_vpp (cfg : AcquisitionConfig) (p : PointScript) (r : PointResult)
    (h : acquirePoint cfg p = PointOutcome.ok r) :
    r.vpp = 0 ∨ isValidReading cfg r.vpp = true := by
  obtain ⟨td, atts⟩ := p
  cases td with
  | fault => simp [acquirePoint] at h
  | reply s =>
    cases hp : parseTdiv s with
    | none => simp [acquirePoint, hp] at h
    | some actual =>
      cases hra : runAttempts cfg cfg.maxAttempts atts 0 with
      | commError => simp [acquirePoint, hp, hra] at h
      | hung => simp [acquirePoint, hp, hra] at h
      | accepted v n =>
        simp [acquirePoint, hp, hra] at h
        rw [← h]
        exact Or.inr (runAttempts_accepted_imp_valid cfg cfg.maxAttempts atts 0 v n hra)
      | exhausted n =>
        simp [acquirePoint, hp, hra] at h
        rw [← h]
        exact Or.inl rfl

/-! ### Claim C4: acceptance predicate and immediate return on the first
valid attempt -/

/-- C4: within one acquisition an attempt is accepted iff
`0 < amplitude < validityCeilingMultiple * referenceAmplitude`; when the
first `k < maxAttempts` attempts read invalid and the next attempt reads
valid, the acquisition returns that amplitude immediately, using exactly
`k + 1` attempts. -/
theorem acquisition_accepts_valid_reading_immediately
    (cfg : AcquisitionConfig) (tdivS : String) (actual : ℚ)
    (bad : List AttemptScript) (good : AttemptScript) (rest : List AttemptScript)
    (htd : parseTdiv tdivS = some actual)
    (hk : bad.length < cfg.maxAttempts)
    (hbad : ∀ b ∈ bad, pollTrigger b.polls = PollResult.stopped ∧
      isValidReading cfg (attemptCandidate b) = false)
    (hpoll : pollTrigger good.polls = PollResult.stopped)
    (hvalid : isValidReading cfg (attemptCandidate good) = true) :
    (∀ w : ℚ, isValidReading cfg w = true ↔
      (0 < w ∧ w < cfg.errorCheckMaxGain * cfg.vppInput)) ∧
    acquirePoint cfg ⟨QueryOutcome.reply tdivS, bad ++ good :: rest⟩ =
      PointOutcome.ok ⟨attemptCandidate good, bad.length + 1, false, actual⟩ := by
  refine ⟨fun w => isValidReading_iff cfg w, ?_⟩
  obtain ⟨m, hm⟩ : ∃ m, cfg.maxAttempts = bad.length + (m + 1) :=
    ⟨cfg.maxAttempts - bad.length - 1, by omega⟩
  have hra : runAttempts cfg cfg.maxAttempts (bad ++ good :: rest) 0 =
      AttemptsOutcome.accepted (attemptCandidate good) (bad.length + 1) := by
    rw [hm, runAttempts_skip_invalid cfg bad (m + 1) 0 (good :: rest) hbad,
      runAttempts_step_valid cfg m (0 + bad.length) good rest hpoll hvalid]
    simp
  simp [acquirePoint, htd, hra]

/-- Witness for C4: one invalid attempt, then a valid 2.34 V reading
accepted as the second attempt. -/
theorem acquisition_accepts_valid_reading_immediately_witness :
    isValidReading bodeConfig (117 / 50) = true ∧
    acquirePoint bodeConfig ⟨QueryOutcome.reply "5.0E-4S", [badAttempt, goodAttempt]⟩ =
      PointOutcome.ok ⟨117 / 50, 2, false, 1 / 2000⟩ := by
  have h := acquisition_accepts_valid_reading_immediately bodeConfig "5.0E-4S" (1 / 2000)
    [badAttempt] goodAttempt [] (by with_unfolding_all decide) (by decide)
    (by with_unfolding_all decide) (by decide) (by with_unfolding_all decide)
  refine ⟨by with_unfolding_all decide, ?_⟩
  have h2 := h.2
  rw [show attemptCandidate goodAttempt = 117 / 50 from by with_unfolding_all decide] at h2
  simpa using h2

/-! ### Claim C5: exhausted retries degrade to amplitude 0 without aborting -/

/-- C5: when no attempt validates within `maxAttempts`, the acquisition
returns amplitude `0` with the degraded flag after exactly `maxAttempts`
attempts, raises nothing, and the sweep continues with the next planned
frequency. -/
theorem acquisition_degrades_after_max_attempts
    (cfg : AcquisitionConfig) (tdivS : String) (actual : ℚ)
    (scripts : List AttemptScript) (rest : List PointScript)
    (htd : parseTdiv tdivS = some actual)
    (hlen : cfg.maxAttempts ≤ scripts.length)
    (hbad : ∀ b ∈ scripts, pollTrigger b.polls = PollResult.stopped ∧
      isValidReading cfg (attemptCandidate b) = false) :
    acquirePoint cfg ⟨QueryOutcome.reply tdivS, scripts⟩ =
      PointOutcome.ok ⟨0, cfg.maxAttempts, true, actual⟩ ∧
    (runSweep cfg (⟨QueryOutcome.reply tdivS, scripts⟩ :: rest)).status =
      (runSweep cfg rest).status ∧
    (runSweep cfg (⟨QueryOutcome.reply tdivS, scripts⟩ :: rest)).vpps =
      0 :: (runSweep cfg rest).vpps := by
  have hra := runAttempts_all_invalid cfg cfg.maxAttempts scripts 0 hlen hbad
  have hpt : acquirePoint cfg ⟨QueryOutcome.reply tdivS, scripts⟩ =
      PointOutcome.ok ⟨0, cfg.maxAttempts, true, actual⟩ := by
    rw [show (0 : ℕ) + cfg.maxAttempts = cfg.maxAttempts from by omega] at hra
    simp [acquirePoint, htd, hra]
  refine ⟨hpt, ?_, ?_⟩ <;> simp [runSweep, sweepPoints, hpt]

/-- Witness for C5: five invalid attempts exhaust `max_attempts = 5` and
yield the degraded zero-amplitude result. -/
theorem acquisition_degrades_after_max_attempts_witness :
    acquirePoint bodeConfig ⟨QueryOutcome.reply "5.0E-4S", List.replicate 5 badAttempt⟩ =
      PointOutcome.ok ⟨0, 5, true, 1 / 2000⟩ ∧
    (runSweep bodeConfig [⟨QueryOutcome.reply "5.0E-4S", List.replicate 5 badAttempt⟩]).status =
      SweepStatus.completed := by
  have h := acquisition_degrades_after_max_attempts bodeConfig "5.0E-4S" (1 / 2000)
    (List.replicate 5 badAttempt) [] (by with_unfolding_all decide) (by decide)
    (by with_unfolding_all decide)
  exact ⟨h.1, h.2.1⟩

/-! ### Claim C8: unparseable peak-to-peak replies become invalid readings -/

/-- C8: when the peak-to-peak reply fails to parse, the attempt amplitude
is `0` and the attempt is treated as an invalid measurement that enters the
retry path, not as a raised error. -/
theorem parse_failure_treated_as_invalid
    (cfg : AcquisitionConfig) (s : String) (a : AttemptScript)
    (rest : List AttemptScript) (fuel used : ℕ)
    (hr : a.pkpk = QueryOutcome.reply s)
    (hp : parsePkpkReply s = none)
    (hpoll : pollTrigger a.polls = PollResult.stopped) :
    attemptCandidate a = 0 ∧
    runAttempts cfg (fuel + 1) (a :: rest) used = runAttempts cfg fuel rest (used + 1) := by
  have hc : attemptCandidate a = 0 := by simp [attemptCandidate, hr, hp]
  exact ⟨hc, runAttempts_step_invalid cfg fuel used a rest hpoll
    (by rw [hc]; exact isValidReading_zero cfg)⟩

/-- Witness for C8: a reply with no comma field fails to parse and steps
into the retry path. -/
theorem parse_failure_treated_as_invalid_witness :
    attemptCandidate badAttempt = 0 ∧
    runAttempts bodeConfig 5 [badAttempt] 0 = runAttempts bodeConfig 4 [] 1 :=
  parse_failure_treated_as_invalid bodeConfig "C1:PAVA PKPK" badAttempt [] 4 0
    rfl (by with_unfolding_all decide) (by decide)

/-! ### Claim C1: a communication fault of the peak-to-peak query -/

/-- Counterexample to C1: the `except` block catches the communication
fault of the `C1:PAVA? PKPK` query, so the acquisition retries (a second
attempt runs and is accepted) and the sweep completes rather than
aborting. -/
theorem pkpk_fault_not_fatal_counterexample :
    acquirePoint bodeConfig faultThenGoodPoint =
      PointOutcome.ok ⟨117 / 50, 2, false, 1 / 2000⟩ ∧
    (runSweep bodeConfig [faultThenGoodPoint]).status = SweepStatus.completed := by
  constructor
  · with_unfolding_all decide
  · with_unfolding_all decide

/-- C1 (amended): a communication fault raised by the peak-to-peak query is
caught and treated as an invalid reading of amplitude `0`; the acquisition
proceeds to the next retry attempt instead of propagating the fault. -/
theorem pkpk_fault_caught_and_retried
    (cfg : AcquisitionConfig) (a : AttemptScript)
    (rest : List AttemptScript) (fuel used : ℕ)
    (hf : a.pkpk = QueryOutcome.fault)
    (hpoll : pollTrigger a.polls = PollResult.stopped) :
    attemptCandidate a = 0 ∧
    runAttempts cfg (fuel + 1) (a :: rest) used = runAttempts cfg fuel rest (used + 1) := by
  have hc : attemptCandidate a = 0 := by simp [attemptCandidate, hf]
  exact ⟨hc, runAttempts_step_invalid cfg fuel used a rest hpoll
    (by rw [hc]; exact isValidReading_zero cfg)⟩

/-- Witness for the amended C1: a faulting peak-to-peak query behaves as a
zero reading and the loop steps to the next attempt. -/
theorem pkpk_fault_caught_and_retried_witness :
    attemptCandidate faultAttempt = 0 ∧
    runAttempts bodeConfig 5 [faultAttempt] 0 = runAttempts bodeConfig 4 [] 1 :=
  pkpk_fault_caught_and_retried bodeConfig faultAttempt [] 4 0 rfl (by decide)

/-! ### Helper lemmas about base-10 logarithms and `logspace` -/

theorem logb_ten_pow (k : ℕ) : Real.logb 10 ((10 : ℝ) ^ k) = k := by
  rw [← Real.rpow_natCast 10 k]
  exact Real.logb_rpow (by norm_num) (by norm_num)

theorem logb_ten_1000 : Real.logb 10 1000 = 3 := by
  have h := logb_ten_pow 3
  norm_num at h
  exact h

theorem logb_ten_ten : Real.logb 10 10 = 1 :=
  Real.logb_self_eq_one (by norm_num : (1 : ℝ) < 10)

theorem logb_ten_two_gt : 3 / 10 < Real.logb 10 2 := by
  have h1 : Real.logb 10 1000 < Real.logb 10 1024 :=
    Real.logb_lt_logb (by norm_num) (by norm_num) (by norm_num)
  have h2 : Real.logb 10 1024 = 10 * Real.logb 10 2 := by
    rw [show (1024 : ℝ) = 2 ^ (10 : ℕ) by norm_num, Real.logb_pow]
    norm_num
  rw [logb_ten_1000, h2] at h1
  linarith

theorem logb_ten_two_lt : Real.logb 10 2 < 7 / 20 := by
  have h1 : Real.logb 10 1048576 < Real.logb 10 10000000 :=
    Real.logb_lt_logb (by norm_num) (by norm_num) (by norm_num)
  have h2 : Real.logb 10 1048576 = 20 * Real.logb 10 2 := by
    rw [show (1048576 : ℝ) = 2 ^ (20 : ℕ) by norm_num, Real.logb_pow]
    norm_num
  have h3 : Real.logb 10 10000000 = 7 := by
    have h := logb_ten_pow 7
    norm_num at h
    exact h
  rw [h2, h3] at h1
  linarith

theorem logb_ten_500 : Real.logb 10 500 = 3 - Real.logb 10 2 := by
  rw [show (500 : ℝ) = 1000 / 2 by norm_num,
    Real.logb_div (by norm_num) (by norm_num), logb_ten_1000]

theorem logspace_length (a b : ℝ) (n : ℕ) : (logspace a b n).length = n := by
  simp [logspace]

theorem logspace_pairwise (a b : ℝ) (hab : a < b) (n : ℕ) :
    (logspace a b n).Pairwise (· < ·) := by
  match n with
  | 0 => simp [logspace]
  | 1 => simp [logspace]
  | m + 2 =>
    refine List.Pairwise.map _ ?_ (List.pairwise_lt_range (m + 2))
    intro i j hij
    refine (Real.rpow_lt_rpow_left_iff (by norm_num : (1 : ℝ) < 10)).mpr ?_
    have hd : (0 : ℝ) < ((m + 2 : ℕ) : ℝ) - 1 := by push_cast; linarith
    have hba : (0 : ℝ) < b - a := sub_pos.mpr hab
    have hcast : (i : ℝ) < (j : ℝ) := Nat.cast_lt.mpr hij
    have : (b - a) * (i : ℝ) / (((m + 2 : ℕ) : ℝ) - 1) <
        (b - a) * (j : ℝ) / (((m + 2 : ℕ) : ℝ) - 1) :=
      (div_lt_div_iff_of_pos_right hd).mpr ((mul_lt_mul_left hba).mpr hcast)
    linarith

theorem logspace_head (a b : ℝ) (n : ℕ) :
    ∀ x ∈ (logspace a b n).head?, x = (10 : ℝ) ^ a := by
  intro x hx
  cases n with
  | zero => simp [logspace] at hx
  | succ m =>
    rw [logspace, List.range_succ_eq_map, List.map_cons] at hx
    simp only [List.head?_cons, Option.mem_def, Option.some_inj] at hx
    subst hx
    norm_num

theorem logspace_getLast (a b : ℝ) (n : ℕ) :
    ∀ x ∈ (logspace a b n).getLast?,
      x = (10 : ℝ) ^ (a + (b - a) * ((n - 1 : ℕ) : ℝ) / ((n : ℝ) - 1)) := by
  intro x hx
  cases n with
  | zero => simp [logspace] at hx
  | succ m =>
    rw [logspace, List.range_succ, List.map_append, List.map_cons, List.map_nil,
      List.getLast?_concat] at hx
    simp only [Option.mem_def, Option.some_inj] at hx
    subst hx
    simp

/-! ### Claim C3: shape of the frequency plan -/

/-- Counterexample to C3: at the valid input `(10, 500, 10)` the plan has
`int((log10 500 - log10 10) * 10) = 16` points, while the claimed
`round((log10 500 - log10 10) * 10)` is `17` — the code truncates the
point count, it does not round it. -/
theorem freq_plan_count_counterexample :
    planLength (frequencyPlan 10 500 10) = 16 ∧
    round ((Real.logb 10 500 - Real.logb 10 10) * 10) = 17 ∧
    (planLength (frequencyPlan 10 500 10) : ℤ) ≠
      round ((Real.logb 10 500 - Real.logb 10 10) * 10) := by
  have hL1 := logb_ten_two_gt
  have hL2 := logb_ten_two_lt
  have hval : (Real.logb 10 500 - Real.logb 10 10) * 10 = 20 - 10 * Real.logb 10 2 := by
    rw [logb_ten_500, logb_ten_ten]
    ring
  have hpos : (0 : ℝ) ≤ (Real.logb 10 500 - Real.logb 10 10) * 10 := by
    rw [hval]
    linarith
  have hfloor : ⌊(Real.logb 10 500 - Real.logb 10 10) * 10⌋ = 16 := by
    rw [hval]
    refine Int.floor_eq_iff.mpr ⟨?_, ?_⟩ <;> push_cast <;> linarith
  have htr : truncToInt ((Real.logb 10 500 - Real.logb 10 10) * 10) = 16 := by
    rw [truncToInt, if_pos hpos, hfloor]
  have hround : round ((Real.logb 10 500 - Real.logb 10 10) * 10) = 17 := by
    rw [round_eq, hval]
    refine Int.floor_eq_iff.mpr ⟨?_, ?_⟩ <;> push_cast <;> linarith
  have hplan : planLength (frequencyPlan 10 500 10) = 16 := by
    simp only [frequencyPlan]
    rw [htr]
    norm_num [planLength, logspace_length]
    decide
  exact ⟨hplan, hround, by rw [hplan, hround]; norm_num⟩

/-- C3 (amended): for every valid input triple the plan is returned without
error; its length is the integer *truncation* of
`(log10 endHz - log10 startHz) * pointsPerDecade` (which may be `0`,
giving an empty plan); it is strictly increasing, and whenever it is
nonempty its first element equals `startHz` and its last element is at
most `endHz`. -/
theorem freq_plan_spec (s e p : ℝ) (hs : 0 < s) (hse : s < e) (hp : 0 < p) :
    ∃ l, frequencyPlan s e p = Except.ok l ∧
      l.length = (truncToInt ((Real.logb 10 e - Real.logb 10 s) * p)).toNat ∧
      l.Pairwise (· < ·) ∧
      (∀ x ∈ l.head?, x = s) ∧
      (∀ x ∈ l.getLast?, x ≤ e) := by
  have he : 0 < e := lt_trans hs hse
  have hab : Real.logb 10 s < Real.logb 10 e := Real.logb_lt_logb (by norm_num) hs hse
  have hvpos : 0 ≤ (Real.logb 10 e - Real.logb 10 s) * p := mul_nonneg (by linarith) hp.le
  have hnn : ¬ truncToInt ((Real.logb 10 e - Real.logb 10 s) * p) < 0 := by
    rw [truncToInt, if_pos hvpos]
    exact not_lt.mpr (Int.floor_nonneg.mpr hvpos)
  have hbases : (10 : ℝ) ^ Real.logb 10 s = s := Real.rpow_logb (by norm_num) (by norm_num) hs
  have hbasee : (10 : ℝ) ^ Real.logb 10 e = e := Real.rpow_logb (by norm_num) (by norm_num) he
  refine ⟨logspace (Real.logb 10 s) (Real.logb 10 e)
      (truncToInt ((Real.logb 10 e - Real.logb 10 s) * p)).toNat, ?_,
    logspace_length _ _ _, logspace_pairwise _ _ hab _, ?_, ?_⟩
  · simp only [frequencyPlan]
    rw [if_neg hnn]
  · intro x hx
    rw [logspace_head _ _ _ x hx]
    exact hbases
  · intro x hx
    rw [logspace_getLast _ _ _ x hx]
    cases hn : (truncToInt ((Real.logb 10 e - Real.logb 10 s) * p)).toNat with
    | zero =>
      norm_num
      rw [hbases]
      exact hse.le
    | succ m =>
      cases m with
      | zero =>
        norm_num
        rw [hbases]
        exact hse.le
      | succ k =>
        have hcast : ((k + 1 + 1 : ℕ) : ℝ) - 1 = (k : ℝ) + 1 := by push_cast; ring
        have hnum : ((k + 1 + 1 - 1 : ℕ) : ℝ) = (k : ℝ) + 1 := by push_cast; ring
        have hne : (k : ℝ) + 1 ≠ 0 := by positivity
        rw [hcast, hnum, mul_div_assoc, div_self hne, mul_one]
        rw [show Real.logb 10 s + (Real.logb 10 e - Real.logb 10 s) = Real.logb 10 e by ring,
          hbasee]

/-- Witness for the amended C3: the plan over `(10, 1000, 10)` spans two
decades and has exactly 20 points. -/
theorem freq_plan_spec_witness :
    ∃ l, frequencyPlan 10 1000 10 = Except.ok l ∧ l.length = 20 := by
  obtain ⟨l, hplan, hlen, _, _, _⟩ :=
    freq_plan_spec 10 1000 10 (by norm_num) (by norm_num) (by norm_num)
  refine ⟨l, hplan, ?_⟩
  rw [hlen, logb_ten_1000, logb_ten_ten]
  norm_num [truncToInt]
  decide

/-! ### Claim C9: absence of parameter validation -/

/-- Counterexample to C9: with `endHz = startHz` (an invalid range per the
claim) the planner raises nothing and returns an empty plan, and likewise
with `pointsPerDecade = 0`; no `InvalidRangeError` or `InvalidDensityError`
exists in the code. -/
theorem freq_plan_rejects_nothing_counterexample :
    frequencyPlan 10 10 10 = Except.ok [] ∧ frequencyPlan 10 1000 0 = Except.ok [] := by
  constructor <;> simp [frequencyPlan, truncToInt, logspace]

/-- C9 (amended): frequency planning performs no parameter validation and
raises no typed configuration error — with `endHz = startHz`, or with
`pointsPerDecade = 0`, it silently returns an empty plan (the hypotheses
`0 < s`, `0 < e` mark the domain on which the real-valued model tracks the
float code, whose `log10` is defined there). -/
theorem freq_plan_no_validation :
    (∀ s p : ℝ, 0 < s → frequencyPlan s s p = Except.ok []) ∧
    (∀ s e : ℝ, 0 < s → 0 < e → frequencyPlan s e 0 = Except.ok []) := by
  constructor
  · intro s p _
    simp [frequencyPlan, truncToInt, logspace]
  · intro s e _ _
    simp [frequencyPlan, truncToInt, logspace]

/-- Witness for the amended C9 at concrete invalid configurations. -/
theorem freq_plan_no_validation_witness :
    frequencyPlan 5 5 3 = Except.ok [] ∧ frequencyPlan 5 50 0 = Except.ok [] :=
  ⟨freq_plan_no_validation.1 5 3 (by norm_num),
    freq_plan_no_validation.2 5 50 (by norm_num) (by norm_num)⟩

/-! ### Claim C2: resource release and partial results -/

/-- Counterexample to C2: a communication fault on the second of two points
aborts the sweep with the exception propagating — the channels are closed
zero times, not once, and the partial series accumulated before the fault
([2.34]) is not returned to the caller. -/
theorem abort_skips_release_counterexample :
    (runSweep bodeConfig [goodPoint, faultPoint]).status = SweepStatus.aborted ∧
    (runSweep bodeConfig [goodPoint, faultPoint]).closeCount = 0 ∧
    (runSweep bodeConfig [goodPoint, faultPoint]).vpps = [117 / 50] ∧
    callerResult (runSweep bodeConfig [goodPoint, faultPoint]) = none := by
  have hst : (sweepPoints bodeConfig [goodPoint, faultPoint]).1 = SweepStatus.aborted := by
    with_unfolding_all decide
  refine ⟨hst, ?_, by with_unfolding_all decide, ?_⟩
  · simp [runSweep, hst]
  · simp [callerResult, runSweep, hst]

/-- C2 (amended): the instrument channels are closed exactly once, and the
series returned to the caller, only on normal completion; when a
communication error aborts the sweep the exception propagates, so no
channel is released and the partial series is discarded with the stack
frame rather than returned. -/
theorem channels_released_only_on_completion (cfg : AcquisitionConfig)
    (pts : List PointScript) :
    ((runSweep cfg pts).status = SweepStatus.completed →
      (runSweep cfg pts).closeCount = 1 ∧
      callerResult (runSweep cfg pts) =
        some ((runSweep cfg pts).vpps, (runSweep cfg pts).dbs)) ∧
    ((runSweep cfg pts).status = SweepStatus.aborted →
      (runSweep cfg pts).closeCount = 0 ∧ callerResult (runSweep cfg pts) = none) := by
  constructor <;> intro h <;> simp only [runSweep] at h <;>
    simp [runSweep, callerResult, h]

/-- Witness for the amended C2: the empty sweep completes and closes the
channels once. -/
theorem channels_released_only_on_completion_witness :
    (runSweep bodeConfig []).closeCount = 1 :=
  ((channels_released_only_on_completion bodeConfig []).1 rfl).1

/-! ### Claim C10: series invariants of the sweep -/

/-- C10: the amplitude and dB series stay aligned — the dB series is
exactly the image of the amplitude series under the gain conversion, one
entry per processed point in plan order — and every recorded amplitude is
either exactly `0` or strictly between `0` and
`error_check_max_gain * vpp_input`. -/
theorem sweep_series_invariants (cfg : AcquisitionConfig) (pts : List PointScript) :
    (runSweep cfg pts).dbs =
      (runSweep cfg pts).vpps.map (fun v => toDecibels (v : ℝ) ((cfg.vppInput : ℚ) : ℝ)) ∧
    (∀ v ∈ (runSweep cfg pts).vpps,
      v = 0 ∨ (0 < v ∧ v < cfg.errorCheckMaxGain * cfg.vppInput)) ∧
    (runSweep cfg pts).vpps.length ≤ pts.length ∧
    ((runSweep cfg pts).status = SweepStatus.completed →
      (runSweep cfg pts).vpps.length = pts.length) := by
  suffices h : ∀ ps : List PointScript,
      (sweepPoints cfg ps).2.2 =
        (sweepPoints cfg ps).2.1.map (fun v => toDecibels (v : ℝ) ((cfg.vppInput : ℚ) : ℝ)) ∧
      (∀ v ∈ (sweepPoints cfg ps).2.1,
        v = 0 ∨ (0 < v ∧ v < cfg.errorCheckMaxGain * cfg.vppInput)) ∧
      (sweepPoints cfg ps).2.1.length ≤ ps.length ∧
      ((sweepPoints cfg ps).1 = SweepStatus.completed →
        (sweepPoints cfg ps).2.1.length = ps.length) by
    simpa [runSweep] using h pts
  intro ps
  induction ps with
  | nil => simp [sweepPoints]
  | cons p rest ih =>
    cases hap : acquirePoint cfg p with
    | raised => simp [sweepPoints, hap]
    | hung => simp [sweepPoints, hap]
    | ok r =>
      refine ⟨?_, ?_, ?_, ?_⟩
      · simp [sweepPoints, hap, ih.1]
      · intro v hv
        simp only [sweepPoints, hap, List.mem_cons] at hv
        rcases hv with rfl | hv
        · rcases acquirePoint_ok_vpp cfg p r hap with h0 | hval
          · exact Or.inl h0
          · exact Or.inr ((isValidReading_iff cfg r.vpp).mp hval)
        · exact ih.2.1 v hv
      · simpa [sweepPoints, hap] using Nat.succ_le_succ ih.2.2.1
      · intro hst
        simp only [sweepPoints, hap] at hst ⊢
        simp [ih.2.2.2 hst]

/-- Witness for C10: a two-point sweep (one accepted, one degraded)
completes with series of length two. -/
theorem sweep_series_invariants_witness :
    (runSweep bodeConfig
        [goodPoint, ⟨QueryOutcome.reply "5.0E-4S", List.replicate 5 badAttempt⟩]).vpps.length =
      2 :=
  (sweep_series_invariants bodeConfig
      [goodPoint, ⟨QueryOutcome.reply "5.0E-4S", List.replicate 5 badAttempt⟩]).2.2.2
    (by with_unfolding_all decide)

/-! ### Claim C6: the gain conversion -/

/-- C6: `toDecibels` computes `20 * log10(|measured| / |reference|)` for
every nonzero reference, is `0` at `measured = reference > 0`, and is the
explicitly represented `-∞` (no error) at `measured = 0`. -/
theorem toDecibels_spec :
    (∀ m r : ℝ, r ≠ 0 → m ≠ 0 →
      toDecibels m r = ((20 * Real.logb 10 (|m| / |r|) : ℝ) : EReal)) ∧
    (∀ r : ℝ, 0 < r → toDecibels r r = ((0 : ℝ) : EReal)) ∧
    (∀ r : ℝ, r ≠ 0 → toDecibels 0 r = ⊥) := by
  refine ⟨fun m r _ hm => by simp [toDecibels, hm], fun r hr => ?_, fun r _ => by
    simp [toDecibels]⟩
  have habs : |r| / |r| = 1 := div_self (abs_ne_zero.mpr hr.ne')
  simp [toDecibels, hr.ne', habs]

/-- Witness for C6 at `reference = 2`. -/
theorem toDecibels_spec_witness :
    toDecibels 2 2 = ((0 : ℝ) : EReal) ∧ toDecibels 0 2 = ⊥ :=
  ⟨toDecibels_spec.2.1 2 (by norm_num), toDecibels_spec.2.2 2 (by norm_num)⟩

/-! ### Claim C7: timebase selection and the diagnostics-only read-back -/

/-- C7: the timebase applied to the capture device is
`max(10 / frequency, 100e-6)`, and the read-back actual timebase has no
effect on the measured amplitude, attempt count, or validity decision. -/
theorem timebase_from_frequency_only (cfg : AcquisitionConfig) :
    (∀ f : ℝ, horizontalScale f = max (10 / f) 100e-6) ∧
    (∀ (s₁ s₂ : String) (q₁ q₂ : ℚ) (atts : List AttemptScript),
      parseTdiv s₁ = some q₁ → parseTdiv s₂ = some q₂ →
      PointOutcome.diagFree (acquirePoint cfg ⟨QueryOutcome.reply s₁, atts⟩) =
        PointOutcome.diagFree (acquirePoint cfg ⟨QueryOutcome.reply s₂, atts⟩)) := by
  refine ⟨fun f => rfl, fun s₁ s₂ q₁ q₂ atts h₁ h₂ => ?_⟩
  cases hra : runAttempts cfg cfg.maxAttempts atts 0 <;>
    simp [acquirePoint, h₁, h₂, hra, PointOutcome.diagFree]

/-- Witness for C7: two different read-back timebases leave the
measurement content unchanged. -/
theorem timebase_from_frequency_only_witness :
    PointOutcome.diagFree
        (acquirePoint bodeConfig ⟨QueryOutcome.reply "1.0E-3S", [goodAttempt]⟩) =
      PointOutcome.diagFree
        (acquirePoint bodeConfig ⟨QueryOutcome.reply "2.0E-3S", [goodAttempt]⟩) :=
  (timebase_from_frequency_only bodeConfig).2 "1.0E-3S" "2.0E-3S" (1 / 1000) (1 / 500)
    [goodAttempt] (by with_unfolding_all decide) (by with_unfolding_all decide)
